import Mathlib

/-
Verification of the LabVIEW interop layer: boolean wire values, the error
cluster and its marshaling operations, the call-dispatch guard, and the
numeric array resize path, shallowly embedded from the Rust sources
(src/labview-interop/src/types/boolean.rs, lv_errors.rs, array/memory.rs).
-/

namespace LVInterop

/-- LVBool is the single-byte boolean wire format used by LabVIEW
(boolean.rs: a newtype over u8). The byte value is modelled as a Nat;
the conversions below only ever produce 0 or 1. -/
structure LVBool where
  val : Nat
deriving DecidableEq, Repr

/-- A false constant in the LVBool format (boolean.rs LV_FALSE). -/
def LV_FALSE : LVBool := ⟨0⟩

/-- A true constant in the LVBool format (boolean.rs LV_TRUE). -/
def LV_TRUE : LVBool := ⟨1⟩

/-- Conversion of a Rust bool into the wire format
(boolean.rs: impl From of bool for LVBool). -/
def lvboolFromBool (b : Bool) : LVBool :=
  match b with
  | true => LV_TRUE
  | false => LV_FALSE

/-- Conversion of a wire value back to a Rust bool (boolean.rs:
impl From of LVBool for bool, written as the negation of matching 0). -/
def boolFromLvbool (v : LVBool) : Bool :=
  !(v.val == 0)

/-- Status codes are signed integers understood by the host; zero denotes
success (errors.rs LVStatusCode, not under src; width abstracted to Int). -/
abbrev LVStatusCode := Int

/-- The LVStatusCode::SUCCESS constant returned by the guard on success. -/
def SUCCESS : LVStatusCode := 0

/-- Failures of the interop layer that the embedded operations can surface
(LVInteropError in errors.rs, not under src; only the constructors the
embedded code paths need are modelled). -/
inductive LVInteropError where
  /-- The host-supplied cluster pointer was null or invalid. -/
  | invalidPointer
  /-- The host string-write primitive reported failure. -/
  | textWriteFailed
  /-- Acquiring the host memory-manager API failed. -/
  | noMemoryApi
  /-- The host resize primitive returned the given nonzero status. -/
  | mgErr (code : Int)
deriving DecidableEq, Repr

/-- The cluster format used by LabVIEW for transmitting errors
(lv_errors.rs struct ErrorCluster: status flag, status code, source text).
The host-owned string handle is modelled by the text it holds. -/
structure ErrorCluster where
  status : LVBool
  code : LVStatusCode
  source : String
deriving DecidableEq, Repr

/-- Read-back of the status flag (lv_errors.rs ErrorCluster::status):
the flag byte is compared for equality with LV_TRUE. -/
def ErrorCluster.statusB (c : ErrorCluster) : Bool :=
  decide (c.status = LV_TRUE)

/-- Read-back of the status code (lv_errors.rs ErrorCluster::code). -/
def ErrorCluster.codeVal (c : ErrorCluster) : LVStatusCode :=
  c.code

/-- The combined source string rule (lv_errors.rs
ErrorCluster::format_error_source): match arms in source order, the
empty-source arm first, then the empty-description arm, then the general
arm. -/
def ErrorCluster.format_error_source (source description : String) : String :=
  if source = "" then "<ERR>\n" ++ description
  else if description = "" then source
  else source ++ "\n<ERR>\n" ++ description

/-- Write of the combined source text through the host string-write
primitive (lv_errors.rs ErrorCluster::set_source calling
LStrHandle::set_str). The primitive is external; its outcome for this call
is the writeOk parameter. On success the held text becomes the combined
string; on failure the call reports textWriteFailed. -/
def ErrorCluster.set_source (c : ErrorCluster) (source description : String)
    (writeOk : Bool) : ErrorCluster × Except LVInteropError Unit :=
  let full_source := ErrorCluster.format_error_source source description
  if writeOk then ({ c with source := full_source }, Except.ok ())
  else (c, Except.error LVInteropError.textWriteFailed)

/-- Set the error cluster to a warning state (lv_errors.rs
ErrorCluster::set_warning): assign code, assign the false flag, then write
the combined source text. -/
def ErrorCluster.set_warning (c : ErrorCluster) (code : LVStatusCode)
    (source description : String) (writeOk : Bool) :
    ErrorCluster × Except LVInteropError Unit :=
  let c1 : ErrorCluster := { c with code := code, status := LV_FALSE }
  c1.set_source source description writeOk

/-- Set the error cluster to an error state (lv_errors.rs
ErrorCluster::set_error): assign code, assign the true flag, then write
the combined source text. -/
def ErrorCluster.set_error (c : ErrorCluster) (code : LVStatusCode)
    (source description : String) (writeOk : Bool) :
    ErrorCluster × Except LVInteropError Unit :=
  let c1 : ErrorCluster := { c with code := code, status := LV_TRUE }
  c1.set_source source description writeOk

/-- The Error-Reportable capability (lv_errors.rs trait ToLvError),
modelled as a record of the trait methods on a fixed error value. Default
method bodies become default field values: code defaults to 42 (the
generic BogusError code), is_error defaults to true, source defaults to
empty; description has no default. The display field carries the value's
Display rendering, which the dispatch guard reads via to_string. -/
structure ToLvError where
  code : LVStatusCode := 42
  is_error : Bool := true
  source : String := ""
  description : String
  display : String
deriving DecidableEq, Repr

/-- Write an error value into the cluster behind a host pointer
(lv_errors.rs ToLvError::write_error): validate the pointer (a null
pointer is modelled as none), then dispatch to set_error when is_error
and to set_warning otherwise, passing code, source and description. -/
def ToLvError.write_error (e : ToLvError) (ptr : Option ErrorCluster)
    (writeOk : Bool) : Option ErrorCluster × Except LVInteropError Unit :=
  match ptr with
  | none => (none, Except.error LVInteropError.invalidPointer)
  | some cluster =>
    if e.is_error then
      let r := cluster.set_error e.code e.source e.description writeOk
      (some r.1, r.2)
    else
      let r := cluster.set_warning e.code e.source e.description writeOk
      (some r.1, r.2)

/-- Result of one dispatch-guard invocation: a returned status code
together with the cluster left behind, or a panic (the unwrap in the
macro) with the cluster state at the point of panic. -/
inductive GuardOutcome where
  | ret (cluster : ErrorCluster) (code : LVStatusCode)
  | panicked (cluster : ErrorCluster)
deriving DecidableEq, Repr

/-- The cluster carried by a guard outcome. -/
def GuardOutcome.cluster : GuardOutcome → ErrorCluster
  | GuardOutcome.ret c _ => c
  | GuardOutcome.panicked c => c

/-- The dispatch guard (lv_errors.rs macro with_lverrorhandling). The unit
of work is a function threading an external state sigma (covering the
already-bound parameters and any observable effect counter) and producing
success or a ToLvError failure. Faithful to the macro body: when the
incoming cluster does not report an error, run the work; on Ok return
SUCCESS; on Err read the failure's Display text and code, update the
cluster through set_error with the fixed source text and unwrap the
write result (a failed write panics), and return the failure's code.
When the cluster already reports an error, skip the work and return the
cluster's existing code. The macro dereferences the cluster pointer
unconditionally to read status, so the model takes a valid cluster; the
as_ref_mut re-check on that same valid pointer succeeds. -/
def with_lverrorhandling {σ : Type} (cluster : ErrorCluster)
    (work : σ → σ × Except ToLvError Unit) (s : σ) (writeOk : Bool) :
    σ × GuardOutcome :=
  if !cluster.statusB then
    match work s with
    | (s1, Except.ok _) => (s1, GuardOutcome.ret cluster SUCCESS)
    | (s1, Except.error err) =>
      let errstr := err.display
      let errcode := err.code
      match cluster.set_error errcode "Rust Interop Error" errstr writeOk with
      | (c, Except.ok _) => (s1, GuardOutcome.ret c errcode)
      | (c, Except.error _) => (s1, GuardOutcome.panicked c)
  else (s, GuardOutcome.ret cluster cluster.codeVal)

/-- Modelled from the spec: the cached dimension descriptor of an array
handle (type LVArrayDims of memory.rs, whose definition lives outside
src): an ordered fixed-length sequence of D unsigned sizes with
structural equality. -/
structure LVArrayDims (D : Nat) where
  sizes : List Nat
  size_len : sizes.length = D

instance {D : Nat} : DecidableEq (LVArrayDims D) := fun a b =>
  decidable_of_iff (a.sizes = b.sizes)
    (by cases a; cases b; simp [LVArrayDims.mk.injEq])

/-- Modelled from the spec: element_count is the product of all dimension
sizes. -/
def LVArrayDims.element_count {D : Nat} (d : LVArrayDims D) : Nat :=
  d.sizes.prod

/-- Outcome of one resize_array invocation: the cached dim_sizes after the
call, the returned result, and how many times the host resize primitive
was invoked. -/
structure ResizeOutcome (D : Nat) where
  dim_sizes : LVArrayDims D
  result : Except LVInteropError Unit
  hostCalls : Nat

/-- Resize of a host-owned numeric array (memory.rs
LVArrayHandle::resize_array). is64 models the target_pointer_width cfg
gate on the equality short-circuit; typeCode is the element kind's
TYPE_CODE; host is the external numeric_array_resize primitive, observed
through the status it returns for (type code, dimensionality, requested
element count); apiOk models whether memory_api() acquisition succeeds.
Faithful to the source: on 64-bit, equal dims return Ok with no host
call; otherwise call the host once, translate a zero status into Ok and
commit dim_sizes, and leave dim_sizes untouched on any nonzero status. -/
def resize_array {D : Nat} (is64 : Bool) (typeCode : Int)
    (host : Int → Int → Nat → Int) (apiOk : Bool)
    (dim_sizes new_dims : LVArrayDims D) : ResizeOutcome D :=
  if is64 = true ∧ new_dims = dim_sizes then
    ⟨dim_sizes, Except.ok (), 0⟩
  else if apiOk = false then
    ⟨dim_sizes, Except.error LVInteropError.noMemoryApi, 0⟩
  else
    let new_size := new_dims.element_count
    let mg_err := host typeCode (D : Int) new_size
    if mg_err = 0 then ⟨new_dims, Except.ok (), 1⟩
    else ⟨dim_sizes, Except.error (LVInteropError.mgErr mg_err), 1⟩

/-- The ten native numeric kinds of the Type-Code Table (memory.rs impls
of NumericArrayResizable). -/
inductive NumericKind where
  | i8 | i16 | i32 | i64 | u8 | u16 | u32 | u64 | f32 | f64
deriving DecidableEq, Repr, Fintype

/-- The TYPE_CODE constant of each numeric kind (memory.rs
NumericArrayResizable::TYPE_CODE, codes 0x01 through 0x0A). -/
def TYPE_CODE : NumericKind → Int
  | NumericKind.i8 => 0x01
  | NumericKind.i16 => 0x02
  | NumericKind.i32 => 0x03
  | NumericKind.i64 => 0x04
  | NumericKind.u8 => 0x05
  | NumericKind.u16 => 0x06
  | NumericKind.u32 => 0x07
  | NumericKind.u64 => 0x08
  | NumericKind.f32 => 0x09
  | NumericKind.f64 => 0x0A

/-- C1 counterexample: the claim's four-case table demands that an empty
source and an empty description combine to the empty string, but
format_error_source applied to two empty strings takes the empty-source
match arm first and yields the lone marker line, not the empty string. -/
theorem format_error_source_empty_empty_ne_empty :
    ¬ (ErrorCluster.format_error_source "" "" = "") := by
  decide

/-- C1 amended: the combined source string follows the table on the three
combinations where some input is non-empty, but when the source is empty
the empty-source arm applies for every description, so two empty inputs
yield the marker line followed by nothing rather than the empty string. -/
theorem format_error_source_cases (source description : String) :
    (source = "" →
      ErrorCluster.format_error_source source description =
        "<ERR>\n" ++ description) ∧
    (source ≠ "" → description = "" →
      ErrorCluster.format_error_source source description = source) ∧
    (source ≠ "" → description ≠ "" →
      ErrorCluster.format_error_source source description =
        source ++ "\n<ERR>\n" ++ description) := by
  refine ⟨fun hs => ?_, fun hs hd => ?_, fun hs hd => ?_⟩
  · simp [ErrorCluster.format_error_source, hs]
  · simp [ErrorCluster.format_error_source, hs, hd]
  · simp [ErrorCluster.format_error_source, hs, hd]

/-- C1 witness: the amended case split evaluated on the spec's concrete
examples. -/
theorem format_error_source_cases_witness :
    ErrorCluster.format_error_source "Rust" "desc" = "Rust\n<ERR>\ndesc" ∧
    ErrorCluster.format_error_source "Rust" "" = "Rust" ∧
    ErrorCluster.format_error_source "" "desc" = "<ERR>\ndesc" :=
  ⟨(format_error_source_cases "Rust" "desc").2.2 (by decide) (by decide),
   (format_error_source_cases "Rust" "").2.1 (by decide) rfl,
   (format_error_source_cases "" "desc").1 rfl⟩

/-- C6 counterexample: a cluster whose status byte holds the nonzero
value 2 is claimed to read back as true, but the status method compares
the byte for equality with the canonical LV_TRUE byte 1 and returns
false. -/
theorem status_nonzero_byte_reads_false :
    ¬ ((ErrorCluster.mk ⟨2⟩ 0 "").statusB = true) := by
  decide

/-- C6 amended: status reads back true exactly when the status byte is
the canonical LV_TRUE value 1; every other byte, including nonzero bytes
other than 1, reads back false. -/
theorem status_reads_canonical_true (b : Nat) (code : LVStatusCode)
    (src : String) :
    (ErrorCluster.mk ⟨b⟩ code src).statusB = true ↔ b = 1 := by
  simp [ErrorCluster.statusB, LV_TRUE, LVBool.mk.injEq]

/-- C9: encoding false then decoding yields false, encoding true then
decoding yields true, decoding any nonzero wire byte yields true, and
encoding only ever produces the canonical bytes 0 and 1. -/
theorem lvbool_round_trip :
    boolFromLvbool (lvboolFromBool false) = false ∧
    boolFromLvbool (lvboolFromBool true) = true ∧
    (∀ n : Nat, n ≠ 0 → boolFromLvbool ⟨n⟩ = true) ∧
    (∀ b : Bool, lvboolFromBool b = LV_FALSE ∨ lvboolFromBool b = LV_TRUE) := by
  refine ⟨rfl, rfl, fun n hn => ?_, fun b => ?_⟩
  · simp [boolFromLvbool, hn]
  · cases b
    · exact Or.inl rfl
    · exact Or.inr rfl

/-- C9 witness: the round trip evaluated on concrete inputs, with the
nonzero-decode clause applied at the byte 23. -/
theorem lvbool_round_trip_witness :
    (23 : Nat) ≠ 0 ∧ boolFromLvbool ⟨23⟩ = true :=
  ⟨by decide, lvbool_round_trip.2.2.1 23 (by decide)⟩

/-- C8: the Type-Code Table maps the ten numeric kinds to the codes 1
through 10 in the fixed order signed 8/16/32/64, unsigned 8/16/32/64,
float32, float64, and the ten codes are pairwise distinct. -/
theorem type_code_table :
    TYPE_CODE NumericKind.i8 = 1 ∧ TYPE_CODE NumericKind.i16 = 2 ∧
    TYPE_CODE NumericKind.i32 = 3 ∧ TYPE_CODE NumericKind.i64 = 4 ∧
    TYPE_CODE NumericKind.u8 = 5 ∧ TYPE_CODE NumericKind.u16 = 6 ∧
    TYPE_CODE NumericKind.u32 = 7 ∧ TYPE_CODE NumericKind.u64 = 8 ∧
    TYPE_CODE NumericKind.f32 = 9 ∧ TYPE_CODE NumericKind.f64 = 10 ∧
    ([TYPE_CODE NumericKind.i8, TYPE_CODE NumericKind.i16,
      TYPE_CODE NumericKind.i32, TYPE_CODE NumericKind.i64,
      TYPE_CODE NumericKind.u8, TYPE_CODE NumericKind.u16,
      TYPE_CODE NumericKind.u32, TYPE_CODE NumericKind.u64,
      TYPE_CODE NumericKind.f32, TYPE_CODE NumericKind.f64] :
      List Int).Nodup := by
  refine ⟨rfl, rfl, rfl, rfl, rfl, rfl, rfl, rfl, rfl, rfl, ?_⟩
  decide

/-- C2: when the incoming cluster already reports an error, the dispatch
guard leaves the external state untouched for every unit of work (the
work is never executed, so an effect counter stays at zero), leaves the
cluster unchanged, and returns the cluster's pre-existing code; since
the shared cluster comes out identical, any later guarded stage in a
chain sees the same recorded error and can never overwrite or mask it. -/
theorem guard_short_circuit {σ : Type} (cluster : ErrorCluster)
    (work : σ → σ × Except ToLvError Unit) (s : σ) (writeOk : Bool)
    (herr : cluster.statusB = true) :
    with_lverrorhandling cluster work s writeOk =
      (s, GuardOutcome.ret cluster cluster.codeVal) := by
  simp [with_lverrorhandling, herr]

/-- C2 witness: a cluster in error state with code 5 short-circuits a
counting unit of work, leaving the counter at 0 and returning 5. -/
theorem guard_short_circuit_witness :
    with_lverrorhandling (ErrorCluster.mk ⟨1⟩ 5 "boom")
      (fun n : Nat => (n + 1, Except.ok ())) 0 true =
      (0, GuardOutcome.ret (ErrorCluster.mk ⟨1⟩ 5 "boom") 5) :=
  guard_short_circuit _ _ _ _ (by decide)

/-- C4 counterexample: for a clean cluster and a failure whose own source
is Rust and description is bad, the claim predicts the cluster's stored
source text to be the format-rule combination of those two texts, but
the guard writes the fixed source text Rust Interop Error combined with
the failure's Display rendering instead, because it calls set_error
directly rather than routing through write_error. -/
theorem guard_bypasses_write_error :
    ¬ ((with_lverrorhandling (ErrorCluster.mk ⟨0⟩ 0 "")
        (fun s : Unit => (s, Except.error
          { code := 7, source := "Rust", description := "bad",
            display := "bad" }))
        () true).2.cluster.source =
      ErrorCluster.format_error_source "Rust" "bad") := by
  decide

/-- C4 amended: for every clean cluster and failing unit of work whose
text write succeeds, the guard does not consult the failure's is_error
or source capabilities: it calls set_error directly, so the cluster's
code becomes the failure's code, the status flag is always set to error,
the stored source text combines the fixed text Rust Interop Error with
the failure's Display rendering, and the guard returns the failure's
code. -/
theorem guard_failure_sets_error_directly {σ : Type} (cluster : ErrorCluster)
    (work : σ → σ × Except ToLvError Unit) (s s1 : σ) (err : ToLvError)
    (hclean : cluster.statusB = false)
    (hwork : work s = (s1, Except.error err)) :
    with_lverrorhandling cluster work s true =
      (s1, GuardOutcome.ret
        { cluster with
            code := err.code
            status := LV_TRUE
            source := ErrorCluster.format_error_source
              "Rust Interop Error" err.display }
        err.code) := by
  simp [with_lverrorhandling, hclean, hwork, ErrorCluster.set_error,
    ErrorCluster.set_source]

/-- C4 amended witness: a failure that reports itself as a warning with
its own source text is still written as an error with the fixed guard
source text, and its code 9 is returned. -/
theorem guard_failure_sets_error_directly_witness :
    with_lverrorhandling (ErrorCluster.mk ⟨0⟩ 0 "")
      (fun s : Unit => (s, Except.error
        { code := 9, is_error := false, source := "S", description := "D",
          display := "D" }))
      () true =
      ((), GuardOutcome.ret (ErrorCluster.mk LV_TRUE 9
        (ErrorCluster.format_error_source "Rust Interop Error" "D")) 9) :=
  guard_failure_sets_error_directly (ErrorCluster.mk ⟨0⟩ 0 "")
    (fun s : Unit => (s, Except.error
      { code := 9, is_error := false, source := "S", description := "D",
        display := "D" }))
    () ()
    { code := 9, is_error := false, source := "S", description := "D",
      display := "D" }
    (by decide) rfl

/-- C5: for a clean cluster and a unit of work failing with code 7, when
the text write succeeds the guard leaves behind a cluster whose status
reads true and whose code reads 7, and returns 7. -/
theorem guard_failure_code7 {σ : Type} (cluster : ErrorCluster)
    (work : σ → σ × Except ToLvError Unit) (s s1 : σ) (err : ToLvError)
    (hclean : cluster.statusB = false)
    (hwork : work s = (s1, Except.error err)) (hcode : err.code = 7) :
    ∃ c : ErrorCluster,
      (with_lverrorhandling cluster work s true).2 = GuardOutcome.ret c 7 ∧
      c.statusB = true ∧ c.codeVal = 7 := by
  refine ⟨{ cluster with
      code := 7
      status := LV_TRUE
      source := ErrorCluster.format_error_source
        "Rust Interop Error" err.display }, ?_, ?_, rfl⟩
  · simp [with_lverrorhandling, hclean, hwork, ErrorCluster.set_error,
      ErrorCluster.set_source, hcode]
  · simp [ErrorCluster.statusB]

/-- C5 witness: a clean cluster and work failing with code 7 and
description bad yield an error-state cluster with code 7 and return 7. -/
theorem guard_failure_code7_witness :
    ∃ c : ErrorCluster,
      (with_lverrorhandling (ErrorCluster.mk ⟨0⟩ 0 "")
        (fun n : Nat => (n + 1, Except.error
          { code := 7, description := "bad", display := "bad" }))
        0 true).2 = GuardOutcome.ret c 7 ∧
      c.statusB = true ∧ c.codeVal = 7 :=
  guard_failure_code7 _ _ 0 1 _ (by decide) rfl rfl

/-- C10: when the host text write fails, set_error and set_warning still
leave the newly written code and status flag in the cluster: both fields
are assigned before the text write, so the cluster mutation is not
atomic on text-write failure. -/
theorem set_ops_commit_code_and_flag_before_text_write (c : ErrorCluster)
    (code : LVStatusCode) (source description : String) :
    ((c.set_error code source description false).2 =
        Except.error LVInteropError.textWriteFailed ∧
      (c.set_error code source description false).1.code = code ∧
      (c.set_error code source description false).1.status = LV_TRUE) ∧
    ((c.set_warning code source description false).2 =
        Except.error LVInteropError.textWriteFailed ∧
      (c.set_warning code source description false).1.code = code ∧
      (c.set_warning code source description false).1.status = LV_FALSE) :=
  ⟨⟨rfl, rfl, rfl⟩, ⟨rfl, rfl, rfl⟩⟩

/-- C3: whenever resize_array actually invokes the host primitive once
and that primitive returns a nonzero status, the call returns the typed
mgErr failure carrying that status and the cached dim_sizes after the
call equal the cached dim_sizes before the call; commitment to new_dims
happens only on a zero status. -/
theorem resize_array_failure_atomic {D : Nat} (is64 : Bool) (typeCode : Int)
    (host : Int → Int → Nat → Int) (apiOk : Bool)
    (dim_sizes new_dims : LVArrayDims D)
    (hcall : (resize_array is64 typeCode host apiOk dim_sizes
      new_dims).hostCalls = 1)
    (hnz : host typeCode (D : Int) new_dims.element_count ≠ 0) :
    (resize_array is64 typeCode host apiOk dim_sizes new_dims).result =
      Except.error (LVInteropError.mgErr
        (host typeCode (D : Int) new_dims.element_count)) ∧
    (resize_array is64 typeCode host apiOk dim_sizes new_dims).dim_sizes =
      dim_sizes := by
  unfold resize_array at hcall ⊢
  by_cases h1 : is64 = true ∧ new_dims = dim_sizes
  · simp [h1] at hcall
  · by_cases h2 : apiOk = false
    · simp [h1, h2] at hcall
    · simp [h1, h2, hnz]

/-- C3 witness: with a host primitive answering status 5, resizing a
one-dimensional array from size 2 to size 3 fails with mgErr 5 and the
cached dimensions stay at size 2. -/
theorem resize_array_failure_atomic_witness :
    (resize_array true 3 (fun _ _ _ => 5) true
      (⟨[2], rfl⟩ : LVArrayDims 1) ⟨[3], rfl⟩).result =
      Except.error (LVInteropError.mgErr 5) ∧
    (resize_array true 3 (fun _ _ _ => 5) true
      (⟨[2], rfl⟩ : LVArrayDims 1) ⟨[3], rfl⟩).dim_sizes = ⟨[2], rfl⟩ :=
  resize_array_failure_atomic _ _ _ _ _ _ (by decide) (by decide)

/-- C7: on a 64-bit target, resizing with new_dims equal to the cached
dim_sizes returns success with zero invocations of the host primitive
and the cached dim_sizes unchanged. -/
theorem resize_array_noop_on_equal_dims {D : Nat} (typeCode : Int)
    (host : Int → Int → Nat → Int) (apiOk : Bool)
    (dim_sizes new_dims : LVArrayDims D) (heq : new_dims = dim_sizes) :
    resize_array true typeCode host apiOk dim_sizes new_dims =
      ⟨dim_sizes, Except.ok (), 0⟩ := by
  simp [resize_array, heq]

/-- C7 witness: a two-dimensional handle resized to its current sizes
succeeds without calling a host primitive that would report status 5. -/
theorem resize_array_noop_on_equal_dims_witness :
    resize_array true 3 (fun _ _ _ => 5) true
      (⟨[2, 4], rfl⟩ : LVArrayDims 2) ⟨[2, 4], rfl⟩ =
      ⟨⟨[2, 4], rfl⟩, Except.ok (), 0⟩ :=
  resize_array_noop_on_equal_dims _ _ _ _ _ rfl

end LVInterop
